import Mathlib

/-!
# Verification of the task-inference pipeline (notion-on-steroids backend)

Shallow embedding of `src/backend/app/agents/task_inference.py`,
`src/backend/app/agents/llm_clients.py` and `src/backend/app/models/task.py`.

Python values flowing through the pipeline (parsed JSON) are modelled by
`JSVal` (JSON numbers are modelled as integers; every claim below concerns
integer confidences/priorities only).  A Python expression that may raise is
modelled as an `Except String` computation, where `.error msg` stands for a
raised exception; a `try/except` block in the source corresponds to a `match`
on that `Except` value.  The two external LLM calls, `datetime.fromisoformat`
and the database commit are modelled as explicit parameters, since they are
external collaborators of the code under verification.
-/

/-- A parsed JSON value, as produced by Python's `json.loads`.
`null` is Python `None`.  Numbers are modelled as integers. -/
inductive JSVal where
  | null : JSVal
  | bool (b : Bool) : JSVal
  | num (n : Int) : JSVal
  | str (s : String) : JSVal
  | arr (xs : List JSVal) : JSVal
  | obj (kvs : List (String × JSVal)) : JSVal

/-- Key lookup in a JSON object (Python dict; keys assumed unique, as
`json.loads` produces). -/
def jget : List (String × JSVal) → String → Option JSVal
  | [], _ => none
  | (k2, v) :: rest, k => if k2 = k then some v else jget rest k

/-- Python truthiness of a value, `if x:`. -/
def pyTruthy : JSVal → Bool
  | .null => false
  | .bool b => b
  | .num n => n != 0
  | .str s => !s.isEmpty
  | .arr xs => !xs.isEmpty
  | .obj kvs => !kvs.isEmpty

/-- Python `d.get(k, default)`: `AttributeError` on a non-dict receiver. -/
def pyGet (td : JSVal) (k : String) (d : JSVal) : Except String JSVal :=
  match td with
  | .obj kvs => .ok ((jget kvs k).getD d)
  | _ => .error "AttributeError: get"

/-- Python `d[k]` for a string key: `KeyError` when absent, `TypeError` on a
non-dict receiver. -/
def pyGetItem (td : JSVal) (k : String) : Except String JSVal :=
  match td with
  | .obj kvs =>
    match jget kvs k with
    | some v => .ok v
    | none => .error ("KeyError: " ++ k)
  | _ => .error "TypeError: not subscriptable"

/-- Python iteration `for x in v`: lists yield elements, strings yield
one-character strings, dicts yield their keys; other values raise
`TypeError`. -/
def pyIter : JSVal → Except String (List JSVal)
  | .arr xs => .ok xs
  | .str s => .ok (s.data.map (fun c => .str (String.mk [c])))
  | .obj kvs => .ok (kvs.map (fun kv => .str kv.1))
  | _ => .error "TypeError: not iterable"

/-- Python string slicing `s[:n]` (by code points). -/
def pyTake (s : String) (n : Nat) : String := ⟨s.data.take n⟩

/-- Python `s.lower()`. -/
def pyLower (s : String) : String := ⟨s.data.map Char.toLower⟩

/-- Whitespace stripped by Python `str.strip()`. -/
def isPySpace (c : Char) : Bool :=
  c = ' ' || c = '\t' || c = '\n' || c = '\r' || c = '\x0b' || c = '\x0c'

/-- Python `s.strip()`. -/
def pyStrip (s : String) : String :=
  ⟨((s.data.dropWhile isPySpace).reverse.dropWhile isPySpace).reverse⟩

/-- Python `v.strip()` on a JSON value: `AttributeError` unless a string. -/
def pyStripVal : JSVal → Except String String
  | .str s => .ok (pyStrip s)
  | _ => .error "AttributeError: strip"

/-- Python `v < t` against an integer: numbers compare, bools compare as
0/1, anything else raises `TypeError`. -/
def pyLtNum (v : JSVal) (t : Int) : Except String Bool :=
  match v with
  | .num n => .ok (decide (n < t))
  | .bool b => .ok (decide ((if b then (1 : Int) else 0) < t))
  | _ => .error "TypeError: unorderable types"

/-- Substring containment on character lists (Python `pat in s`). -/
def containsSub (pat : List Char) : List Char → Bool
  | [] => pat.isEmpty
  | c :: rest => pat.isPrefixOf (c :: rest) || containsSub pat rest

/-- Python `pat in s` for strings. -/
def pyContains (s pat : String) : Bool := containsSub pat.data s.data

/-- A naive Python `datetime`: `day` is the proleptic-Gregorian ordinal of
the date (`date.toordinal()`; day arithmetic in `timedelta` is exact
24-hour steps on naive datetimes, so adding days shifts the ordinal and
keeps the clock time). -/
structure PyDateTime where
  day : Int
  hour : Nat
  minute : Nat
  second : Nat
  microsecond : Nat
deriving DecidableEq, Repr

/-- `timedelta` normalization bound: `timedelta(days=N)` raises
`OverflowError` when `N` exceeds 999999999 in magnitude. -/
def timedeltaMaxDays : Int := 999999999

/-- Ordinal of `datetime.max`'s date (9999-12-31): `datetime + timedelta`
raises `OverflowError` when the result passes it. -/
def datetimeMaxOrd : Int := 3652059

/-- `now + timedelta(days = n)` for `n ≥ 0`: first `timedelta(days=n)` is
constructed (`OverflowError` beyond its bound), then the addition
(`OverflowError` past `datetime.max`; the lower `datetime.min` bound is
unreachable here since only non-negative day counts are ever added). -/
def addDays (d : PyDateTime) (n : Nat) : Except String PyDateTime :=
  if (n : Int) > timedeltaMaxDays then
    .error "OverflowError: timedelta days out of range"
  else if d.day + (n : Int) > datetimeMaxOrd then
    .error "OverflowError: date value out of range"
  else
    .ok { d with day := d.day + (n : Int) }

/-- A staged `Task` ORM record (`app/models/task.py`).  Fields keep the
Python values passed to the constructor after the `@validates` hooks ran;
`title`, `description`, `context`, `priority` and `confidence_score` keep
their dynamic `JSVal` type since Python stores whatever the validator
returned. -/
structure TaskRecord where
  title : JSVal
  description : JSVal
  context : JSVal
  status : String
  priority : JSVal
  confidence_score : JSVal
  source_type : String
  source_id : String
  due_date : Option PyDateTime
  inferred_at : PyDateTime

/-- The pipeline state `TaskInferenceState`.  `extracted_tasks` is typed
`List[dict]` in the source but Python does not enforce the annotation and
one reachable path stores a non-list there, so it is a bare `JSVal`. -/
structure PState where
  content : String
  source : String
  message_id : Int
  is_actionable : Bool
  extracted_tasks : JSVal
  validated_tasks : List JSVal
  confidence_scores : List JSVal
  created_tasks : List TaskRecord
  errors : List String

/-- The initial state built by `infer_tasks_from_text`. -/
def initial_state (content source : String) (mid : Int) : PState :=
  { content := content
    source := source
    message_id := mid
    is_actionable := false
    extracted_tasks := .arr []
    validated_tasks := []
    confidence_scores := []
    created_tasks := []
    errors := [] }

/-- `OllamaClient.is_actionable`: `genResult` is the outcome of the inner
`self.generate` call (`.error` = raised).  On success the verdict is
whether `"yes"` occurs in the first 10 characters of the lowercased
response; on any failure it returns `True` (fail-open). -/
def ollama_is_actionable (genResult : Except String String) : Bool :=
  match genResult with
  | .ok response => pyContains (pyTake (pyLower response) 10) "yes"
  | .error _ => true

/-- Stage 1, `analyze_message`.  `classify` is the outcome of
`ollama.is_actionable` (`.error` = the call raised).  When classification
is disabled the content is assumed actionable; a raised classification
error is caught and also defaults to actionable. -/
def analyze_message (s : PState) (useLocal : Bool) (classify : Except String Bool) : PState :=
  if useLocal then
    match classify with
    | .ok b => { s with is_actionable := b }
    | .error _ => { s with is_actionable := true }
  else
    { s with is_actionable := true }

/-- Shape normalization in `extract_tasks`: a bare list is kept, an object
with a `tasks` key yields that value, anything else becomes `[]` (with only
a process-log message, nothing appended to `errors`). -/
def extract_shape (rj : JSVal) : JSVal :=
  match rj with
  | .arr _ => rj
  | .obj kvs =>
    match jget kvs "tasks" with
    | some v => v
    | none => .arr []
  | _ => .arr []

/-- The comprehension `[task.get("confidence", 50) for task in tasks]`. -/
def confScores : List JSVal → Except String (List JSVal)
  | [] => .ok []
  | t :: rest =>
    match pyGet t "confidence" (.num 50) with
    | .error e => .error e
    | .ok v =>
      match confScores rest with
      | .error e => .error e
      | .ok vs => .ok (v :: vs)

/-- Body of the `try` block of `extract_tasks` after `claude.generate_json`
succeeded with `rj`: shape normalization, then the `confidence_scores`
comprehension, whose element accesses may raise.  Returns the final
`(extracted_tasks, confidence_scores)` pair. -/
def extract_body (rj : JSVal) : Except String (JSVal × List JSVal) :=
  let tasks := extract_shape rj
  match pyIter tasks with
  | .error e => .error e
  | .ok elems =>
    match confScores elems with
    | .error e => .error e
    | .ok scores => .ok (tasks, scores)

/-- Stage 2, `extract_tasks`.  `response` is the outcome of
`claude.generate_json` (`.error` = it raised).  The returned `Bool` records
whether the Extraction Client was invoked.  Any exception inside the `try`
block is caught: `extracted_tasks` is reset to `[]` and a diagnostic is
appended to `errors`; the unrecognized-shape branch only logs. -/
def extract_tasks (s : PState) (response : Except String JSVal) : PState × Bool :=
  if !s.is_actionable then
    ({ s with extracted_tasks := .arr [] }, false)
  else
    match response with
    | .error e =>
      ({ s with extracted_tasks := .arr []
                errors := s.errors ++ ["Task extraction failed: " ++ e] }, true)
    | .ok rj =>
      match extract_body rj with
      | .ok (tasks, scores) =>
        ({ s with extracted_tasks := tasks, confidence_scores := scores }, true)
      | .error e =>
        ({ s with extracted_tasks := .arr []
                  errors := s.errors ++ ["Task extraction failed: " ++ e] }, true)

/-- The loop of `validate_tasks` over the extracted candidates: confidence
threshold, non-empty trimmed title, case-insensitive per-run dedup.
`seen` is the `seen_titles` set (lowercased accepted titles).  The loop has
no exception handler, so a raising field access propagates as `.error`. -/
def validate_go (threshold : Int) : List JSVal → List String → Except String (List JSVal)
  | [], _ => .ok []
  | td :: rest, seen =>
    match pyGet td "confidence" (.num 0) with
    | .error e => .error e
    | .ok confRaw =>
      match pyLtNum confRaw threshold with
      | .error e => .error e
      | .ok true => validate_go threshold rest seen
      | .ok false =>
        match pyGet td "title" (.str "") with
        | .error e => .error e
        | .ok titleRaw =>
          match pyStripVal titleRaw with
          | .error e => .error e
          | .ok title =>
            if title = "" then
              validate_go threshold rest seen
            else if seen.contains (pyLower title) then
              validate_go threshold rest seen
            else
              match validate_go threshold rest (pyLower title :: seen) with
              | .error e => .error e
              | .ok out => .ok (td :: out)

/-- Stage 3, `validate_tasks` (threshold is
`settings.MIN_CONFIDENCE_THRESHOLD`). -/
def validate_tasks (s : PState) (threshold : Int) : Except String PState :=
  match pyIter s.extracted_tasks with
  | .error e => .error e
  | .ok elems =>
    match validate_go threshold elems [] with
    | .error e => .error e
    | .ok v => .ok { s with validated_tasks := v }

/-- Attempt to match the regex `in (\d+) days?` at the head of a character
list: literal `"in "`, one or more digits (captured), then `" day"` (the
trailing `s` is optional, so it does not affect whether a match exists). -/
def matchInNDaysHere (cs : List Char) : Option Nat :=
  match cs with
  | 'i' :: 'n' :: ' ' :: rest =>
    let ds := rest.takeWhile Char.isDigit
    if ds.isEmpty then
      none
    else
      match rest.dropWhile Char.isDigit with
      | ' ' :: 'd' :: 'a' :: 'y' :: _ => some (ds.foldl (fun a c => 10 * a + (c.toNat - 48)) 0)
      | _ => none
  | _ => none

/-- `re.search(r"in (\d+) days?", s)`: leftmost match wins. -/
def searchInNDays : List Char → Option Nat
  | [] => none
  | c :: rest =>
    match matchInNDaysHere (c :: rest) with
    | some n => some n
    | none => searchInNDays rest

/-- `_parse_relative_date`: case-insensitive substring patterns in source
order with a `+1 day` default.  The date additions can raise
`OverflowError` (huge `in N days` counts, or a current moment at the very
end of the representable range); `now.replace(hour=17, ...)` cannot. -/
def parseRelativeDate (date_str : String) (now : PyDateTime) : Except String PyDateTime :=
  let s := pyStrip (pyLower date_str)
  if pyContains s "tomorrow" then
    addDays now 1
  else if pyContains s "next week" then
    addDays now 7
  else if pyContains s "eod" || pyContains s "end of day" then
    .ok { now with hour := 17, minute := 0, second := 0, microsecond := 0 }
  else if pyContains s "next month" then
    addDays now 30
  else
    match searchInNDays s.data with
    | some n => addDays now n
    | none => addDays now 1

/-- Parameters of the Generate stage that come from outside the pipeline
code: `datetime.now()`, `datetime.utcnow()`, and `datetime.fromisoformat`
(where `none` stands for the `ValueError` it raises on a non-ISO string). -/
structure GenEnv where
  source : String
  message_id : Int
  now : PyDateTime
  utcnow : PyDateTime
  fromiso : String → Option PyDateTime

/-- The `@validates("priority")` hook: `None` is allowed, out-of-range
numbers raise `ValueError`, non-numbers raise `TypeError` at the
comparison. -/
def validate_priority (v : JSVal) : Except String JSVal :=
  match v with
  | .null => .ok .null
  | .num n =>
    if n < 1 || n > 5 then .error "ValueError: Priority must be between 1 and 5"
    else .ok v
  | .bool b =>
    if (if b then (1 : Int) else 0) < 1 || (if b then (1 : Int) else 0) > 5 then
      .error "ValueError: Priority must be between 1 and 5"
    else .ok v
  | _ => .error "TypeError: unorderable types"

/-- The `@validates("confidence_score")` hook: out-of-range numbers raise
`ValueError`, non-numbers raise `TypeError` at the comparison. -/
def validate_confidence_score (v : JSVal) : Except String JSVal :=
  match v with
  | .num n =>
    if n < 0 || n > 100 then .error "ValueError: Confidence score must be between 0 and 100"
    else .ok v
  | .bool b =>
    if (if b then (1 : Int) else 0) < 0 || (if b then (1 : Int) else 0) > 100 then
      .error "ValueError: Confidence score must be between 0 and 100"
    else .ok v
  | _ => .error "TypeError: unorderable types"

/-- Python `v[:500]`: strings and lists slice, other values raise
`TypeError`. -/
def pySlice500 : JSVal → Except String JSVal
  | .str s => .ok (.str (pyTake s 500))
  | .arr xs => .ok (.arr (xs.take 500))
  | _ => .error "TypeError: not subscriptable"

/-- Due-date resolution of `generate_tasks`: falsy values give no due
date; a string tries `datetime.fromisoformat` then falls back to
`_parse_relative_date`; a truthy non-string raises inside
`_parse_relative_date` (`.lower()` on a non-string), which the inner
`except (ValueError, TypeError)` does not catch.  An `OverflowError`
from the relative fallback likewise escapes the inner handler (it runs
inside the `except` block) and is only caught per-candidate. -/
def parse_due (env : GenEnv) (dueRaw : JSVal) : Except String (Option PyDateTime) :=
  if pyTruthy dueRaw then
    match dueRaw with
    | .str ds =>
      match env.fromiso ds with
      | some d => .ok (some d)
      | none =>
        match parseRelativeDate ds env.now with
        | .ok d => .ok (some d)
        | .error e => .error e
    | _ => .error "AttributeError: lower"
  else
    .ok none

/-- The body of the per-candidate `try` block of `generate_tasks`: due-date
resolution, then the `Task(...)` construction with its validators, in
Python evaluation order.  `.error` is a raised exception caught by the
per-candidate handler. -/
def stage_candidate (env : GenEnv) (td : JSVal) : Except String TaskRecord :=
  match pyGet td "due_date" .null with
  | .error e => .error e
  | .ok dueRaw =>
    match parse_due env dueRaw with
    | .error e => .error e
    | .ok due_date =>
      match pyGetItem td "title" with
      | .error e => .error e
      | .ok titleRaw =>
        match pySlice500 titleRaw with
        | .error e => .error e
        | .ok title =>
          match pyGet td "description" .null with
          | .error e => .error e
          | .ok descr =>
            match pyGet td "context" .null with
            | .error e => .error e
            | .ok ctx =>
              match pyGet td "priority" (.num 3) with
              | .error e => .error e
              | .ok prioRaw =>
                match pyGet td "confidence" (.num 50) with
                | .error e => .error e
                | .ok confRaw =>
                  match validate_priority prioRaw with
                  | .error e => .error e
                  | .ok priority =>
                    match validate_confidence_score confRaw with
                    | .error e => .error e
                    | .ok confidence =>
                      .ok
                        { title := title
                          description := descr
                          context := ctx
                          status := "todo"
                          priority := priority
                          confidence_score := confidence
                          source_type := env.source
                          source_id := toString env.message_id
                          due_date := due_date
                          inferred_at := env.utcnow }

/-- The staging loop of `generate_tasks`: each candidate is handled in its
own `try/except`, a failure appends a diagnostic and skips only that
candidate.  Returns the staged records and the errors appended, each in
order. -/
def stage_all (env : GenEnv) : List JSVal → List TaskRecord × List String
  | [] => ([], [])
  | td :: rest =>
    match stage_candidate env td with
    | .ok r => (r :: (stage_all env rest).1, (stage_all env rest).2)
    | .error e =>
      ((stage_all env rest).1, ("Failed to create task: " ++ e) :: (stage_all env rest).2)

/-- Stage 4, `generate_tasks`.  `commit` is the outcome of the
`db.commit()` / `db.refresh` block: on failure everything is rolled back,
`created_tasks` becomes empty and the commit error is appended after the
per-candidate errors. -/
def generate_tasks (s : PState) (now utcnow : PyDateTime)
    (fromiso : String → Option PyDateTime) (commit : Except String Unit) : PState :=
  let env : GenEnv :=
    { source := s.source, message_id := s.message_id
      now := now, utcnow := utcnow, fromiso := fromiso }
  match commit with
  | .ok _ =>
    { s with created_tasks := (stage_all env s.validated_tasks).1
             errors := s.errors ++ (stage_all env s.validated_tasks).2 }
  | .error ce =>
    { s with created_tasks := []
             errors := s.errors ++ (stage_all env s.validated_tasks).2
               ++ ["Database commit failed: " ++ ce] }

/-- The whole orchestrated run (`infer_tasks_from_text` over the compiled
graph `analyze → extract → validate → generate`).  Only `validate_tasks`
lacks an exception handler, so an exception raised there is the only way
the run as a whole can fail. -/
def run_pipeline (useLocal : Bool) (classify : Except String Bool)
    (response : Except String JSVal) (threshold : Int)
    (now utcnow : PyDateTime) (fromiso : String → Option PyDateTime)
    (commit : Except String Unit)
    (content source : String) (mid : Int) : Except String PState :=
  let s1 := analyze_message (initial_state content source mid) useLocal classify
  let s2 := (extract_tasks s1 response).1
  (validate_tasks s2 threshold).map (fun s3 => generate_tasks s3 now utcnow fromiso commit)

/-!
## Spec-side reference definitions and shared lemmas
-/

/-- A candidate whose present fields have the types the spec's
`CandidateTask` promises for the fields the validator reads: `confidence`
numeric (or absent) and `title` a string (or absent). -/
def wellTypedCand (td : JSVal) : Bool :=
  match td with
  | .obj kvs =>
    (match jget kvs "confidence" with
     | none => true
     | some (.num _) => true
     | some _ => false) &&
    (match jget kvs "title" with
     | none => true
     | some (.str _) => true
     | some _ => false)
  | _ => false

/-- The candidate's confidence as the spec reads it (numeric, default 0). -/
def specConfidence (td : JSVal) : Int :=
  match td with
  | .obj kvs =>
    match jget kvs "confidence" with
    | some (.num n) => n
    | _ => 0
  | _ => 0

/-- The candidate's title as the spec reads it (string, default empty). -/
def specTitle (td : JSVal) : String :=
  match td with
  | .obj kvs =>
    match jget kvs "title" with
    | some (.str s) => s
    | _ => ""
  | _ => ""

/-- Modelled from the spec: the Candidate Validator contract.  For each
candidate in extraction order: drop if `confidence < threshold`, drop if
the trimmed title is empty, drop if the case-insensitive title was already
accepted in this run; otherwise accept and record the lowercase title in
the seen-set. -/
def validateSpec (threshold : Int) : List JSVal → List String → List JSVal
  | [], _ => []
  | td :: rest, seen =>
    let conf := specConfidence td
    let t := pyStrip (specTitle td)
    if threshold ≤ conf && t != "" && !(seen.contains (pyLower t)) then
      td :: validateSpec threshold rest (pyLower t :: seen)
    else
      validateSpec threshold rest seen

/-- On well-typed candidates the source validator never raises and computes
exactly the spec's filter, for any seen-set. -/
theorem validate_go_eq_spec (threshold : Int) (tds : List JSVal) :
    ∀ seen : List String, tds.all wellTypedCand = true →
      validate_go threshold tds seen = .ok (validateSpec threshold tds seen) := by
  induction tds with
  | nil => intro seen _; rfl
  | cons td rest ih =>
    intro seen h
    simp only [List.all_cons, Bool.and_eq_true] at h
    obtain ⟨h1, h2⟩ := h
    cases td with
    | obj kvs =>
      simp only [wellTypedCand, Bool.and_eq_true] at h1
      obtain ⟨hc, ht⟩ := h1
      have hconf : ∃ n : Int, (jget kvs "confidence").getD (.num 0) = .num n ∧
          specConfidence (.obj kvs) = n := by
        cases hcv : jget kvs "confidence" with
        | none => exact ⟨0, by simp [hcv], by simp [specConfidence, hcv]⟩
        | some v =>
          cases v with
          | num n => exact ⟨n, by simp [hcv], by simp [specConfidence, hcv]⟩
          | null => rw [hcv] at hc; simp at hc
          | bool b => rw [hcv] at hc; simp at hc
          | str s => rw [hcv] at hc; simp at hc
          | arr xs => rw [hcv] at hc; simp at hc
          | obj kvs2 => rw [hcv] at hc; simp at hc
      have htitle : ∃ s : String, (jget kvs "title").getD (.str "") = .str s ∧
          specTitle (.obj kvs) = s := by
        cases htv : jget kvs "title" with
        | none => exact ⟨"", by simp [htv], by simp [specTitle, htv]⟩
        | some v =>
          cases v with
          | str s => exact ⟨s, by simp [htv], by simp [specTitle, htv]⟩
          | null => rw [htv] at ht; simp at ht
          | bool b => rw [htv] at ht; simp at ht
          | num n => rw [htv] at ht; simp at ht
          | arr xs => rw [htv] at ht; simp at ht
          | obj kvs2 => rw [htv] at ht; simp at ht
      obtain ⟨n, hn, hn2⟩ := hconf
      obtain ⟨ts, hts, hts2⟩ := htitle
      simp only [validate_go, validateSpec, pyGet, hn, hn2, hts, hts2, pyLtNum, pyStripVal]
      by_cases hlt : n < threshold
      · simp [hlt, ih seen h2, Int.not_le.mpr hlt]
      · simp only [decide_eq_true_eq, hlt, decide_False]
        have hle : threshold ≤ n := Int.not_lt.mp hlt
        by_cases hemp : pyStrip ts = ""
        · simp [hemp, ih seen h2, hle]
        · by_cases hseen : pyLower (pyStrip ts) ∈ seen
          · simp [hemp, hseen, ih seen h2, hle]
          · simp [hemp, hseen, ih (pyLower (pyStrip ts) :: seen) h2, hle]
    | null => simp [wellTypedCand] at h1
    | bool b => simp [wellTypedCand] at h1
    | num n => simp [wellTypedCand] at h1
    | str s => simp [wellTypedCand] at h1
    | arr xs => simp [wellTypedCand] at h1

/-- The Extraction Client is invoked exactly when `is_actionable` is true. -/
theorem extract_invoked (s : PState) (response : Except String JSVal) :
    (extract_tasks s response).2 = s.is_actionable := by
  unfold extract_tasks
  cases hia : s.is_actionable with
  | false => simp
  | true =>
    cases response with
    | error e => simp
    | ok rj =>
      cases h : extract_body rj with
      | ok p => simp [h]
      | error e => simp [h]

/-- Whatever `extract_tasks` leaves in `extracted_tasks` is always
iterable (the success path already iterated it, every other path stores
`[]`). -/
theorem extract_extracted_iterable (s : PState) (response : Except String JSVal) :
    ∃ elems, pyIter ((extract_tasks s response).1.extracted_tasks) = .ok elems := by
  cases hia : s.is_actionable with
  | false => exact ⟨[], by simp [extract_tasks, hia, pyIter]⟩
  | true =>
    cases response with
    | error e => exact ⟨[], by simp [extract_tasks, hia, pyIter]⟩
    | ok rj =>
      cases h : extract_body rj with
      | error e => exact ⟨[], by simp [extract_tasks, hia, h, pyIter]⟩
      | ok p =>
        have hgoal : (extract_tasks s (.ok rj)).1.extracted_tasks = p.1 := by
          simp [extract_tasks, hia, h]
        rw [hgoal]
        unfold extract_body at h
        dsimp only [] at h
        cases hit : pyIter (extract_shape rj) with
        | error e => rw [hit] at h; exact absurd h (by simp)
        | ok elems =>
          rw [hit] at h
          dsimp only [] at h
          cases hcs : confScores elems with
          | error e => rw [hcs] at h; exact absurd h (by simp)
          | ok scores =>
            rw [hcs] at h
            dsimp only [] at h
            refine ⟨elems, ?_⟩
            simp only [Except.ok.injEq] at h
            rw [← h]
            exact hit

/-- Staging distributes over list append: candidates are handled
independently. -/
theorem stage_all_append (env : GenEnv) (xs ys : List JSVal) :
    stage_all env (xs ++ ys) =
      ((stage_all env xs).1 ++ (stage_all env ys).1,
       (stage_all env xs).2 ++ (stage_all env ys).2) := by
  induction xs with
  | nil => simp [stage_all]
  | cons td rest ih =>
    simp only [List.cons_append, stage_all]
    cases stage_candidate env td with
    | ok r => simp [ih]
    | error e => simp [ih]

/-!
## Claim theorems
-/

/-- C1: for every state and input, if the classification call fails at
either layer (the Ollama generate call inside `is_actionable`, or the
`is_actionable` call itself), the Analyze stage does not propagate the
failure: `is_actionable` is set to true (fail-open), and the pipeline
proceeds to extraction (the Extraction Client is invoked). -/
theorem spec_c1 (s : PState) (e e2 : String) (response : Except String JSVal) :
    ollama_is_actionable (.error e) = true ∧
    (analyze_message s true (.ok (ollama_is_actionable (.error e)))).is_actionable = true ∧
    (analyze_message s true (.error e2)).is_actionable = true ∧
    (extract_tasks (analyze_message s true (.error e2)) response).2 = true := by
  refine ⟨rfl, rfl, rfl, ?_⟩
  rw [extract_invoked]
  rfl

/-- C2: for every run in which the batch commit of the Generate stage
fails, the whole batch is rolled back: the final `created_tasks` is empty
(no partial subset of the staged records), and the commit error is
appended to `errors` after the per-candidate staging errors. -/
theorem spec_c2 (s : PState) (now utcnow : PyDateTime)
    (fromiso : String → Option PyDateTime) (ce : String) :
    (generate_tasks s now utcnow fromiso (.error ce)).created_tasks = [] ∧
    (generate_tasks s now utcnow fromiso (.error ce)).errors =
      s.errors
        ++ (stage_all ⟨s.source, s.message_id, now, utcnow, fromiso⟩ s.validated_tasks).2
        ++ ["Database commit failed: " ++ ce] :=
  ⟨rfl, rfl⟩

/-- C3: on every extracted candidate sequence whose fields are well-typed
and every threshold, the validator never raises and returns exactly the
spec's filter `validateSpec`: candidates in extraction order, accepted iff
confidence `≥` threshold, trimmed title non-empty, and case-insensitive
title not accepted earlier in the run (first occurrence kept). -/
theorem spec_c3 (tds : List JSVal) (threshold : Int)
    (h : tds.all wellTypedCand = true) :
    validate_go threshold tds [] = .ok (validateSpec threshold tds []) :=
  validate_go_eq_spec threshold tds [] h

def c3w1 : JSVal := .obj [("title", .str "Send report"), ("confidence", .num 90)]

def c3w2 : JSVal := .obj [("title", .str "send report"), ("confidence", .num 95)]

/-- Witness for C3 at the spec's own example: duplicate case-insensitive
titles with threshold 70 yield exactly the first candidate. -/
theorem spec_c3_witness : validate_go 70 [c3w1, c3w2] [] = .ok [c3w1] :=
  (spec_c3 [c3w1, c3w2] 70 rfl).trans (by rfl)

/-- C8: the Extraction Client is invoked iff `is_actionable` is true after
Analyze: when classification is disabled Analyze always sets
`is_actionable` true; when `is_actionable` is false Extract produces an
empty candidate list without invoking the client. -/
theorem spec_c8 (s : PState) (response : Except String JSVal)
    (classify : Except String Bool) :
    (extract_tasks s response).2 = s.is_actionable ∧
    (analyze_message s false classify).is_actionable = true ∧
    (extract_tasks { s with is_actionable := false } response).1.extracted_tasks = .arr [] ∧
    (extract_tasks { s with is_actionable := false } response).2 = false := by
  refine ⟨extract_invoked s response, rfl, rfl, ?_⟩
  rw [extract_invoked]

/-- C7 counterexample: the resolver is not total and "in N day(s)" does
not always give now + N days — at `"in 999999999999 days"` the source
raises `OverflowError` (`timedelta(days=N)` bound), so the claim's
universal "+N days" result and its never-raises clause are false. -/
theorem spec_c7_cex :
    parseRelativeDate "in 999999999999 days" ⟨739200, 9, 30, 0, 0⟩
      = .error "OverflowError: timedelta days out of range" := rfl

/-- C7 (amended): for every string due-date expression that fails strict
ISO parsing, resolution uses case-insensitive substring matching in source
precedence order: "tomorrow" → now + 1 day; "next week" → now + 7 days;
"eod"/"end of day" → today at 17:00:00 with minutes, seconds and
sub-seconds zeroed (never raising); "next month" → now + 30 days;
"in N day(s)" → now + N days; otherwise now + 1 day — where each day
addition succeeds and yields the shifted moment only while N is within
the `timedelta` bound (999999999) and the result within `datetime.max`;
beyond either bound the resolver raises `OverflowError`, so it is not
total on strings (for pattern-free input it raises only when now + 1 day
itself overflows, unreachable for a real clock). -/
theorem spec_c7 (ds : String) (now : PyDateTime) (n : Nat) :
    (pyContains (pyStrip (pyLower ds)) "tomorrow" = true →
      parseRelativeDate ds now = addDays now 1) ∧
    (pyContains (pyStrip (pyLower ds)) "tomorrow" = false →
      pyContains (pyStrip (pyLower ds)) "next week" = true →
      parseRelativeDate ds now = addDays now 7) ∧
    (pyContains (pyStrip (pyLower ds)) "tomorrow" = false →
      pyContains (pyStrip (pyLower ds)) "next week" = false →
      (pyContains (pyStrip (pyLower ds)) "eod"
        || pyContains (pyStrip (pyLower ds)) "end of day") = true →
      parseRelativeDate ds now
        = .ok { now with hour := 17, minute := 0, second := 0, microsecond := 0 }) ∧
    (pyContains (pyStrip (pyLower ds)) "tomorrow" = false →
      pyContains (pyStrip (pyLower ds)) "next week" = false →
      (pyContains (pyStrip (pyLower ds)) "eod"
        || pyContains (pyStrip (pyLower ds)) "end of day") = false →
      pyContains (pyStrip (pyLower ds)) "next month" = true →
      parseRelativeDate ds now = addDays now 30) ∧
    (pyContains (pyStrip (pyLower ds)) "tomorrow" = false →
      pyContains (pyStrip (pyLower ds)) "next week" = false →
      (pyContains (pyStrip (pyLower ds)) "eod"
        || pyContains (pyStrip (pyLower ds)) "end of day") = false →
      pyContains (pyStrip (pyLower ds)) "next month" = false →
      searchInNDays (pyStrip (pyLower ds)).data = some n →
      parseRelativeDate ds now = addDays now n) ∧
    (pyContains (pyStrip (pyLower ds)) "tomorrow" = false →
      pyContains (pyStrip (pyLower ds)) "next week" = false →
      (pyContains (pyStrip (pyLower ds)) "eod"
        || pyContains (pyStrip (pyLower ds)) "end of day") = false →
      pyContains (pyStrip (pyLower ds)) "next month" = false →
      searchInNDays (pyStrip (pyLower ds)).data = none →
      parseRelativeDate ds now = addDays now 1) ∧
    ((n : Int) ≤ timedeltaMaxDays → now.day + (n : Int) ≤ datetimeMaxOrd →
      addDays now n = .ok { now with day := now.day + (n : Int) }) ∧
    ((n : Int) > timedeltaMaxDays →
      addDays now n = .error "OverflowError: timedelta days out of range") ∧
    ((n : Int) ≤ timedeltaMaxDays → now.day + (n : Int) > datetimeMaxOrd →
      addDays now n = .error "OverflowError: date value out of range") := by
  refine ⟨?_, ?_, ?_, ?_, ?_, ?_, ?_, ?_, ?_⟩
  · intro h1
    simp [parseRelativeDate, h1]
  · intro h1 h2
    simp [parseRelativeDate, h1, h2]
  · intro h1 h2 h3
    simp [parseRelativeDate, h1, h2, h3]
  · intro h1 h2 h3 h4
    rw [Bool.or_eq_false_iff] at h3
    simp [parseRelativeDate, h1, h2, h3.1, h3.2, h4]
  · intro h1 h2 h3 h4 h5
    rw [Bool.or_eq_false_iff] at h3
    simp [parseRelativeDate, h1, h2, h3.1, h3.2, h4, h5]
  · intro h1 h2 h3 h4 h5
    rw [Bool.or_eq_false_iff] at h3
    simp [parseRelativeDate, h1, h2, h3.1, h3.2, h4, h5]
  · intro h1 h2
    unfold addDays
    rw [if_neg (not_lt.mpr h1), if_neg (not_lt.mpr h2)]
  · intro h1
    unfold addDays
    rw [if_pos h1]
  · intro h1 h2
    unfold addDays
    rw [if_neg (not_lt.mpr h1), if_pos h2]

/-- Witness for C7 (amended): the spec's unparseable example "whenever"
resolves to the default now + 1 day, and "in 3 days" to now + 3 days, at a
present-day clock where the additions stay in range. -/
theorem spec_c7_witness :
    parseRelativeDate "whenever" ⟨739200, 9, 30, 0, 0⟩
      = .ok ⟨739201, 9, 30, 0, 0⟩ ∧
    parseRelativeDate "in 3 days" ⟨739200, 9, 30, 0, 0⟩
      = .ok ⟨739203, 9, 30, 0, 0⟩ :=
  ⟨((spec_c7 "whenever" ⟨739200, 9, 30, 0, 0⟩ 1).2.2.2.2.2.1
        rfl rfl rfl rfl rfl).trans
      ((spec_c7 "whenever" ⟨739200, 9, 30, 0, 0⟩ 1).2.2.2.2.2.2.1
        (by decide) (by decide)),
    ((spec_c7 "in 3 days" ⟨739200, 9, 30, 0, 0⟩ 3).2.2.2.2.1
        rfl rfl rfl rfl rfl).trans
      ((spec_c7 "in 3 days" ⟨739200, 9, 30, 0, 0⟩ 3).2.2.2.2.2.2.1
        (by decide) (by decide))⟩

/-- C9: a failure constructing or staging one candidate in the Generate
stage is isolated: for every split of the candidate list around a failing
candidate, the staged records are exactly those of the prefix and the
suffix, and the failure's diagnostic is inserted between their error
lists. -/
theorem spec_c9 (env : GenEnv) (pre post : List JSVal) (bad : JSVal) (e : String)
    (h : stage_candidate env bad = .error e) :
    stage_all env (pre ++ bad :: post) =
      ((stage_all env pre).1 ++ (stage_all env post).1,
       (stage_all env pre).2
         ++ ("Failed to create task: " ++ e) :: (stage_all env post).2) := by
  rw [stage_all_append]
  simp [stage_all, h]

def c9env : GenEnv :=
  ⟨"manual_text", 7, ⟨0, 0, 0, 0, 0⟩, ⟨0, 0, 0, 0, 0⟩, fun _ => none⟩

def c9good1 : JSVal := .obj [("title", .str "Review PR"), ("confidence", .num 80)]

def c9good2 : JSVal := .obj [("title", .str "Send report"), ("confidence", .num 75)]

def c9bad : JSVal := .obj [("title", .str "x"), ("confidence", .num 150)]

/-- Witness for C9: a candidate whose confidence 150 is rejected by the
record validator is skipped, its diagnostic recorded, and both neighbours
are still staged. -/
theorem spec_c9_witness :
    stage_all c9env [c9good1, c9bad, c9good2] =
      ((stage_all c9env [c9good1]).1 ++ (stage_all c9env [c9good2]).1,
       (stage_all c9env [c9good1]).2
         ++ ("Failed to create task: "
              ++ "ValueError: Confidence score must be between 0 and 100")
           :: (stage_all c9env [c9good2]).2) ∧
    (stage_all c9env [c9good1, c9bad, c9good2]).1.length = 2 :=
  ⟨spec_c9 c9env [c9good1] [c9good2] c9bad
      "ValueError: Confidence score must be between 0 and 100" rfl, rfl⟩

/-- C4 counterexample: a candidate whose `title` field is JSON null makes
the Validate stage raise (`None.strip()`, an `AttributeError`), and the
error escapes the orchestrator: the run as a whole fails instead of
returning a state.  The claim that every stage is total over all input
states is false. -/
theorem spec_c4_cex :
    run_pipeline true (.ok true)
        (.ok (.arr [.obj [("title", .null), ("confidence", .num 90)]]))
        70 ⟨0, 0, 0, 0, 0⟩ ⟨0, 0, 0, 0, 0⟩ (fun _ => none) (.ok ())
        "Ping" "manual_text" 1
      = .error "AttributeError: strip" := rfl

/-- C4 (amended): Analyze, Extract and Generate absorb internal failures
and always return a state, but Validate has no error handler; the whole
run returns normally provided every extracted candidate is well-typed in
the fields Validate reads (`confidence` numeric or absent, `title` a
string or absent).  A candidate with a null or non-string title (or a
non-numeric confidence) makes Validate raise an error that escapes the
orchestrator. -/
theorem spec_c4 (useLocal : Bool) (classify : Except String Bool)
    (response : Except String JSVal) (threshold : Int)
    (now utcnow : PyDateTime) (fromiso : String → Option PyDateTime)
    (commit : Except String Unit) (content source : String) (mid : Int)
    (h : ∀ elems,
      pyIter ((extract_tasks
          (analyze_message (initial_state content source mid) useLocal classify)
          response).1.extracted_tasks) = .ok elems →
      elems.all wellTypedCand = true) :
    ∃ finalState,
      run_pipeline useLocal classify response threshold now utcnow fromiso commit
          content source mid
        = .ok finalState := by
  obtain ⟨elems, helems⟩ :=
    extract_extracted_iterable
      (analyze_message (initial_state content source mid) useLocal classify) response
  refine ⟨generate_tasks
      { (extract_tasks (analyze_message (initial_state content source mid) useLocal classify)
          response).1 with
        validated_tasks := validateSpec threshold elems [] }
      now utcnow fromiso commit, ?_⟩
  simp only [run_pipeline, validate_tasks, helems]
  rw [validate_go_eq_spec threshold elems [] (h elems helems)]
  rfl

def c4cand : JSVal := .obj [("title", .str "Send report"), ("confidence", .num 90)]

/-- Witness for C4 (amended) on a well-typed extraction response. -/
theorem spec_c4_witness :
    ∃ finalState,
      run_pipeline true (.ok true) (.ok (.arr [c4cand])) 70
          ⟨0, 0, 0, 0, 0⟩ ⟨0, 0, 0, 0, 0⟩ (fun _ => none) (.ok ())
          "Ping" "manual_text" 1
        = .ok finalState :=
  spec_c4 true (.ok true) (.ok (.arr [c4cand])) 70
    ⟨0, 0, 0, 0, 0⟩ ⟨0, 0, 0, 0, 0⟩ (fun _ => none) (.ok ())
    "Ping" "manual_text" 1
    (fun elems h => by
      have h2 : (Except.ok [c4cand] : Except String (List JSVal)) = .ok elems := h
      injection h2 with h3
      rw [← h3]
      rfl)

/-- C5 counterexample: an unrecognized response shape (a bare JSON number)
yields an empty candidate list but `errors` stays empty — the diagnostic
goes only to the process log, so the claim that a diagnostic is recorded
in `errors` for unrecognized shapes is false. -/
theorem spec_c5_cex :
    (extract_tasks { initial_state "Ping" "manual_text" 1 with is_actionable := true }
        (.ok (.num 5))).1.extracted_tasks = .arr [] ∧
    (extract_tasks { initial_state "Ping" "manual_text" 1 with is_actionable := true }
        (.ok (.num 5))).1.errors = [] :=
  ⟨rfl, rfl⟩

/-- C5 (amended): when the extraction response cannot be parsed (the call
raises), a diagnostic is appended to `errors` and `extracted_candidates`
is empty; when the payload parses but has an unrecognized shape (not a
bare list, and not an object with a `tasks` key), `extracted_candidates`
is empty and `errors` is unchanged — the diagnostic goes only to the
process log.  In neither case are partial or guessed candidates
emitted. -/
theorem spec_c5 (s : PState) (e : String) (n : Int) (b : Bool) (st : String)
    (kvs : List (String × JSVal)) (h : jget kvs "tasks" = none) :
    ((extract_tasks { s with is_actionable := true } (.error e)).1.extracted_tasks
        = .arr [] ∧
      (extract_tasks { s with is_actionable := true } (.error e)).1.errors
        = s.errors ++ ["Task extraction failed: " ++ e]) ∧
    ((extract_tasks { s with is_actionable := true } (.ok (.num n))).1.extracted_tasks
        = .arr [] ∧
      (extract_tasks { s with is_actionable := true } (.ok (.num n))).1.errors
        = s.errors) ∧
    ((extract_tasks { s with is_actionable := true } (.ok .null)).1.extracted_tasks
        = .arr [] ∧
      (extract_tasks { s with is_actionable := true } (.ok .null)).1.errors
        = s.errors) ∧
    ((extract_tasks { s with is_actionable := true } (.ok (.bool b))).1.extracted_tasks
        = .arr [] ∧
      (extract_tasks { s with is_actionable := true } (.ok (.bool b))).1.errors
        = s.errors) ∧
    ((extract_tasks { s with is_actionable := true } (.ok (.str st))).1.extracted_tasks
        = .arr [] ∧
      (extract_tasks { s with is_actionable := true } (.ok (.str st))).1.errors
        = s.errors) ∧
    ((extract_tasks { s with is_actionable := true } (.ok (.obj kvs))).1.extracted_tasks
        = .arr [] ∧
      (extract_tasks { s with is_actionable := true } (.ok (.obj kvs))).1.errors
        = s.errors) := by
  refine ⟨⟨rfl, rfl⟩, ⟨rfl, rfl⟩, ⟨rfl, rfl⟩, ⟨rfl, rfl⟩, ⟨rfl, rfl⟩, ?_⟩
  constructor
  · simp [extract_tasks, extract_body, extract_shape, h, pyIter, confScores]
  · simp [extract_tasks, extract_body, extract_shape, h, pyIter, confScores]

/-- Witness for C5 (amended) at an object without a `tasks` key. -/
theorem spec_c5_witness :
    (extract_tasks { initial_state "Ping" "manual_text" 1 with is_actionable := true }
        (.ok (.obj [("other", .null)]))).1.extracted_tasks = .arr [] ∧
    (extract_tasks { initial_state "Ping" "manual_text" 1 with is_actionable := true }
        (.ok (.obj [("other", .null)]))).1.errors = [] := by
  have h := (spec_c5 (initial_state "Ping" "manual_text" 1) "boom" 5 true "x"
    [("other", .null)] rfl).2.2.2.2.2
  exact ⟨h.1, h.2⟩

/-- C6 counterexample: with threshold 0, a candidate with no `confidence`
field passes validation (compared as 0) and is persisted — but the stored
confidence score is 50 (the Generate-stage default), not 0 as the claim
states. -/
theorem spec_c6_cex :
    (run_pipeline true (.ok true) (.ok (.arr [.obj [("title", .str "Send report")]])) 0
        ⟨0, 0, 0, 0, 0⟩ ⟨0, 0, 0, 0, 0⟩ (fun _ => none) (.ok ())
        "Ping" "manual_text" 1).map
        (fun st => st.created_tasks.map (fun r => r.confidence_score))
      = .ok [.num 50] ∧ (JSVal.num 50 ≠ JSVal.num 0) := by
  refine ⟨rfl, ?_⟩
  intro hcontra
  injection hcontra with h
  exact absurd h (by decide)

/-- C6 (amended): an absent `confidence` field defaults to 0 only in the
validation comparison (so with a positive threshold such a candidate is
dropped); in the Generate stage the default is 50, so a persisted record
built from a confidence-less candidate carries confidence score 50, not
0. -/
theorem spec_c6 (kvs : List (String × JSVal)) (th : Int) (env : GenEnv)
    (h : jget kvs "confidence" = none) :
    pyGet (.obj kvs) "confidence" (.num 0) = .ok (.num 0) ∧
    (0 < th → validate_go th [.obj kvs] [] = .ok []) ∧
    (∀ r, stage_candidate env (.obj kvs) = .ok r → r.confidence_score = .num 50) := by
  refine ⟨by simp [pyGet, h], ?_, ?_⟩
  · intro hth
    simp [validate_go, pyGet, h, pyLtNum, hth]
  · intro r hr
    simp only [stage_candidate, pyGet, h, Option.getD] at hr
    repeat' split at hr
    all_goals simp_all [validate_confidence_score]
    all_goals rw [← hr]

def c6kvs : List (String × JSVal) := [("title", .str "Write notes")]

def c6env : GenEnv :=
  ⟨"manual_text", 3, ⟨0, 0, 0, 0, 0⟩, ⟨0, 0, 0, 0, 0⟩, fun _ => none⟩

def c6rec : TaskRecord :=
  { title := .str "Write notes"
    description := .null
    context := .null
    status := "todo"
    priority := .num 3
    confidence_score := .num 50
    source_type := "manual_text"
    source_id := "3"
    due_date := none
    inferred_at := ⟨0, 0, 0, 0, 0⟩ }

/-- Witness for C6 (amended) at a concrete confidence-less candidate. -/
theorem spec_c6_witness :
    pyGet (.obj c6kvs) "confidence" (.num 0) = .ok (.num 0) ∧
    validate_go 1 [.obj c6kvs] [] = .ok [] ∧
    c6rec.confidence_score = .num 50 := by
  obtain ⟨h1, h2, h3⟩ := spec_c6 c6kvs 1 c6env rfl
  exact ⟨h1, h2 (by decide), h3 c6rec rfl⟩

def c10_t1 : String := ⟨List.replicate 500 'a' ++ ['b']⟩

def c10_t2 : String := ⟨List.replicate 500 'a' ++ ['c']⟩

def c10a500 : String := ⟨List.replicate 500 'a'⟩

def c10c1 : JSVal := .obj [("title", .str c10_t1), ("confidence", .num 90)]

def c10c2 : JSVal := .obj [("title", .str c10_t2), ("confidence", .num 90)]

set_option maxRecDepth 10000 in
/-- C10: title truncation to 500 characters happens only at persistence,
after deduplication compared full titles: two candidates whose titles
differ only beyond the 500th character both pass validation and are both
persisted with identical stored titles, so persisted titles within one run
are not guaranteed unique. -/
theorem spec_c10 :
    c10_t1 ≠ c10_t2 ∧
    pyTake c10_t1 500 = pyTake c10_t2 500 ∧
    (run_pipeline true (.ok true) (.ok (.arr [c10c1, c10c2])) 70
        ⟨0, 0, 0, 0, 0⟩ ⟨0, 0, 0, 0, 0⟩ (fun _ => none) (.ok ())
        "Notes" "manual_text" 1).map
        (fun st => (st.validated_tasks, st.created_tasks.map (fun r => r.title)))
      = .ok ([c10c1, c10c2], [.str c10a500, .str c10a500]) := by
  refine ⟨by decide, by decide, by rfl⟩
